import Mathlib

/-!
Verification development for the EXIF overlay app (`src/pages/index.js`).

The repository contains two variants of the same Next.js page, separated by
a document marker: a plain-React variant (lines 1–257, called V1 below) and
a Mantine-UI variant (lines 258–487, called V2).  Both variants share the
same pipeline: `handleImageUpload` (EXIF extraction and formatting),
`drawImageWithText` (scaling, layout and text drawing on a canvas),
`downloadImage` / `downloadAllImages` (export).  We embed the relevant
functions of both variants shallowly:

* JavaScript numbers that can only take finite rational values in the code
  paths we model are embedded as `ℚ`; where `-Infinity` genuinely arises
  (`Math.max(...[])` on an empty selection) we use the `JsNum` sum type
  with explicit IEEE-style special values.
* Template-literal interpolation of a number is embedded by `numToString`,
  which produces the exact JavaScript output for numbers with terminating
  decimal expansions (the only ones pinned by any theorem below).
* Fallible operations (EXIF parsing, canvas-handle lookup) are embedded
  with `Except` / `Option`.
-/

/-- A JavaScript number as it occurs in the layout code: either a finite
rational, one of the two infinities (from `Math.max` of an empty spread and
arithmetic on it), or `NaN`.  `-0` is identified with `0`, which is sound
for every comparison and string the app performs on these values. -/
inductive JsNum where
  | nan : JsNum
  | posInf : JsNum
  | negInf : JsNum
  | fin : ℚ → JsNum
deriving DecidableEq, Repr

namespace JsNum

/-- JavaScript addition on `JsNum` (IEEE-754 rules, no `-0`). -/
def jsAdd : JsNum → JsNum → JsNum
  | nan, _ => nan
  | _, nan => nan
  | posInf, negInf => nan
  | negInf, posInf => nan
  | posInf, _ => posInf
  | _, posInf => posInf
  | negInf, _ => negInf
  | _, negInf => negInf
  | fin a, fin b => fin (a + b)

/-- JavaScript negation on `JsNum`. -/
def jsNeg : JsNum → JsNum
  | nan => nan
  | posInf => negInf
  | negInf => posInf
  | fin a => fin (-a)

/-- JavaScript subtraction on `JsNum`. -/
def jsSub (a b : JsNum) : JsNum := jsAdd a (jsNeg b)

/-- JavaScript division on `JsNum` (IEEE-754 rules, no `-0`: division of a
finite nonzero numerator by `0` takes the sign of the numerator). -/
def jsDiv : JsNum → JsNum → JsNum
  | nan, _ => nan
  | _, nan => nan
  | posInf, posInf => nan
  | posInf, negInf => nan
  | negInf, posInf => nan
  | negInf, negInf => nan
  | posInf, fin q => if q < 0 then negInf else posInf
  | negInf, fin q => if q < 0 then posInf else negInf
  | fin _, posInf => fin 0
  | fin _, negInf => fin 0
  | fin p, fin q =>
      if q = 0 then (if p = 0 then nan else if p < 0 then negInf else posInf)
      else fin (p / q)

instance : Add JsNum := ⟨jsAdd⟩
instance : Neg JsNum := ⟨jsNeg⟩
instance : Sub JsNum := ⟨jsSub⟩
instance : Div JsNum := ⟨jsDiv⟩

end JsNum

/-- Embedding of `Math.max(...ws)` over a spread list of finite measured widths: yields
`-Infinity` when the list is empty, else the maximum. -/
def jsMaxList (ws : List ℚ) : JsNum :=
  match ws with
  | [] => JsNum.negInf
  | w :: rest => JsNum.fin (rest.foldl max w)

/-- Embedding of `Math.round` for finite arguments: rounds half toward `+∞`,
`Math.round x = ⌊x + 1/2⌋`. -/
def jsRound (q : ℚ) : ℤ := ⌊q + (1 : ℚ) / 2⌋

/-- Decimal digits of the fractional part `r / d` (with `r < d`), as
JavaScript prints them; `fuel` bounds the expansion, which is exact for
every terminating decimal of at most `fuel` digits. -/
def decimalDigits (fuel : ℕ) (r d : ℕ) : String :=
  match fuel with
  | 0 => ""
  | fuel + 1 =>
      if r = 0 then ""
      else toString (r * 10 / d) ++ decimalDigits fuel (r * 10 % d) d

/-- JavaScript number-to-string for a nonnegative rational. -/
def numToStringNonneg (q : ℚ) : String :=
  let n := q.num.toNat
  let d := q.den
  if n % d = 0 then toString (n / d)
  else toString (n / d) ++ "." ++ decimalDigits 40 (n % d) d

/-- Embedding of JavaScript template-literal interpolation of a finite
number, exact on numbers with terminating decimal expansions (the only
values any theorem below pins to a concrete string). -/
def numToString (q : ℚ) : String :=
  if q < 0 then "-" ++ numToStringNonneg (-q) else numToStringNonneg q

/-- A JavaScript value stored in a metadata field: a string, a number, or
`undefined` (the value of a missing property of an object). -/
inductive JsVal where
  | str : String → JsVal
  | num : ℚ → JsVal
  | undef : JsVal
deriving DecidableEq, Repr

/-- Template-literal interpolation of a `JsVal` (so in particular
`undefined` prints as `"undefined"`). -/
def JsVal.toDisplay : JsVal → String
  | .str s => s
  | .num q => numToString q
  | .undef => "undefined"

/-- The fields of the object returned by `ExifReader.parse` that the app
reads.  A `none` field is an absent (`undefined`) property; string-valued
fields are kept at their display string. -/
structure ExifRaw where
  Model : Option String
  DateTimeOriginal : Option String
  ISO : Option ℚ
  ExposureTime : Option ℚ
  FNumber : Option ℚ
  FocalLength : Option ℚ
  latitude : Option ℚ
  longitude : Option ℚ
  ImageDescription : Option String
deriving DecidableEq, Repr

/-- JavaScript truthiness of an optional number: `undefined` and `0` are
falsy. -/
def truthyQ : Option ℚ → Bool
  | none => false
  | some q => q != 0

/-- JavaScript truthiness of an optional string: `undefined` and `""` are
falsy. -/
def truthyStr : Option String → Bool
  | none => false
  | some s => s != ""

/-- The `exifData` object of one Image Entry: the eight display fields. -/
structure ExifData where
  camera : JsVal
  date : JsVal
  iso : JsVal
  shutter : JsVal
  aperture : JsVal
  focal : JsVal
  gps : JsVal
  description : JsVal
deriving DecidableEq, Repr

/-- The empty object `{}`: every property access yields `undefined`.  This
is the `exifData` an entry keeps when `ExifReader.parse` throws (the
`catch` branch of `handleImageUpload` never reassigns it). -/
def emptyExifData : ExifData :=
  ⟨.undef, .undef, .undef, .undef, .undef, .undef, .undef, .undef⟩

/-- V1 `handleImageUpload`, lines 32–41: the `exifData` object literal
built when `ExifReader.parse` succeeds.  `||` defaults on falsy values,
`cond ? a : "N/A"` on the truthiness of the tested field. -/
def mkExifData (e : ExifRaw) : ExifData where
  camera := if truthyStr e.Model then .str (e.Model.getD "") else .str "N/A"
  date := if truthyStr e.DateTimeOriginal then .str (e.DateTimeOriginal.getD "") else .str "N/A"
  iso := if truthyQ e.ISO then .num (e.ISO.getD 0) else .str "N/A"
  shutter :=
    if truthyQ e.ExposureTime then
      .str ("1/" ++ toString (jsRound (1 / e.ExposureTime.getD 1)))
    else .str "N/A"
  aperture :=
    if truthyQ e.FNumber then .str ("f/" ++ numToString (e.FNumber.getD 0))
    else .str "N/A"
  focal :=
    if truthyQ e.FocalLength then .str (numToString (e.FocalLength.getD 0) ++ "mm")
    else .str "N/A"
  gps :=
    if truthyQ e.latitude && truthyQ e.longitude then
      .str (numToString (e.latitude.getD 0) ++ ", " ++ numToString (e.longitude.getD 0))
    else .str "N/A"
  description := if truthyStr e.ImageDescription then .str (e.ImageDescription.getD "") else .str "N/A"

/-- V2 `handleImageUpload`, lines 319–328: identical to V1 except that
`aperture` and `focal` use the nullish operator `??` inside the template
literal, so they are always prefixed/suffixed and default only on
`undefined` (not on `0`). -/
def mkExifDataV2 (e : ExifRaw) : ExifData where
  camera := if truthyStr e.Model then .str (e.Model.getD "") else .str "N/A"
  date := if truthyStr e.DateTimeOriginal then .str (e.DateTimeOriginal.getD "") else .str "N/A"
  iso := if truthyQ e.ISO then .num (e.ISO.getD 0) else .str "N/A"
  shutter :=
    if truthyQ e.ExposureTime then
      .str ("1/" ++ toString (jsRound (1 / e.ExposureTime.getD 1)))
    else .str "N/A"
  aperture :=
    .str ("f/" ++ (match e.FNumber with | some f => numToString f | none => "N/A"))
  focal :=
    .str ((match e.FocalLength with | some f => numToString f | none => "N/A") ++ "mm")
  gps :=
    if truthyQ e.latitude && truthyQ e.longitude then
      .str (numToString (e.latitude.getD 0) ++ ", " ++ numToString (e.longitude.getD 0))
    else .str "N/A"
  description := if truthyStr e.ImageDescription then .str (e.ImageDescription.getD "") else .str "N/A"

/-- The padding constant of `drawImageWithText` (both variants). -/
def padding : ℚ := 20

/-- V1 `drawImageWithText`, lines 99–127: the `switch (textPosition)`
computing the text-block origin.  `textPosition` is kept as the raw string
state; `maxTextWidth` is the result of `Math.max(...)` and so a `JsNum`
(it is `-Infinity` when no field is selected); `lineCount` is
`textLines.length`. -/
def computeOrigin (textPosition : String) (lineCount : ℕ) (fontSize : ℚ)
    (maxTextWidth : JsNum) (newWidth newHeight : ℚ) : JsNum × JsNum :=
  match textPosition with
  | "top-left" =>
      (.fin padding, .fin (padding + fontSize))
  | "top-right" =>
      (.fin newWidth - .fin padding - maxTextWidth, .fin (padding + fontSize))
  | "bottom-left" =>
      (.fin padding, .fin (newHeight - lineCount * (fontSize + 5)))
  | "bottom-right" =>
      (.fin newWidth - .fin padding - maxTextWidth,
       .fin (newHeight - lineCount * (fontSize + 5)))
  | "bottom-center" =>
      ((.fin newWidth - maxTextWidth) / .fin 2,
       .fin (newHeight - lineCount * (fontSize + 5)))
  | _ =>
      (.fin padding, .fin (newHeight - lineCount * (fontSize + 5)))

/-- V2 `drawImageWithText`, lines 386–399: the same switch written with
merged cases and conditional expressions. -/
def computeOriginV2 (textPosition : String) (lineCount : ℕ) (fontSize : ℚ)
    (maxTextWidth : JsNum) (newWidth newHeight : ℚ) : JsNum × JsNum :=
  match textPosition with
  | "bottom-center" =>
      ((.fin newWidth - maxTextWidth) / .fin 2,
       .fin (newHeight - lineCount * (fontSize + 5)))
  | "top-right" =>
      (.fin newWidth - .fin padding - maxTextWidth,
       if textPosition = "top-right" then .fin (padding + fontSize)
       else .fin (newHeight - lineCount * (fontSize + 5)))
  | "bottom-right" =>
      (.fin newWidth - .fin padding - maxTextWidth,
       if textPosition = "top-right" then .fin (padding + fontSize)
       else .fin (newHeight - lineCount * (fontSize + 5)))
  | _ =>
      (.fin padding,
       if textPosition = "top-left" then .fin (padding + fontSize)
       else .fin (newHeight - lineCount * (fontSize + 5)))

/-- The five anchor strings the position `<select>` offers. -/
def anchorPositions : List String :=
  ["top-left", "top-right", "bottom-left", "bottom-right", "bottom-center"]

/-- Spec-side horizontal origin, written from the claim: `x = 20` for left
anchors, `x = canvasWidth - 20 - maxTextWidth` for right anchors,
`x = (canvasWidth - maxTextWidth) / 2` for bottom-center. -/
def originXSpec (anchor : String) (maxTextWidth canvasWidth : ℚ) : ℚ :=
  if anchor = "top-left" ∨ anchor = "bottom-left" then 20
  else if anchor = "top-right" ∨ anchor = "bottom-right" then
    canvasWidth - 20 - maxTextWidth
  else (canvasWidth - maxTextWidth) / 2

/-- Spec-side vertical origin, written from the claim: `y = 20 + fontSizePx`
for top anchors, `y = canvasHeight - lineCount * (fontSizePx + 5)` for
bottom anchors. -/
def originYSpec (anchor : String) (lineCount : ℕ) (fontSize canvasHeight : ℚ) : ℚ :=
  if anchor = "top-left" ∨ anchor = "top-right" then 20 + fontSize
  else canvasHeight - lineCount * (fontSize + 5)

/-- Lines 68–74 (V1) and 353–359 (V2) of `drawImageWithText`: the output
dimensions.  `resolution` is the configured maximum width, `none` standing
for the `"original"` setting; when the native width exceeds the maximum the
height is scaled first (`newHeight = (resolution / newWidth) * newHeight`)
and the width then set to the maximum. -/
def computeOutputDims (resolution : Option ℚ) (w h : ℚ) : ℚ × ℚ :=
  match resolution with
  | some r => if w > r then (r, r / w * h) else (w, h)
  | none => (w, h)

/-- The eight metadata field names offered by the field selector (both
variants restrict `selectedExifFields` to these values). -/
inductive ExifField where
  | camera | date | iso | shutter | aperture | focal | gps | description
deriving DecidableEq, Repr

/-- The string name of a field, as used in the multiselect options and the
persisted settings array. -/
def ExifField.name : ExifField → String
  | .camera => "camera"
  | .date => "date"
  | .iso => "iso"
  | .shutter => "shutter"
  | .aperture => "aperture"
  | .focal => "focal"
  | .gps => "gps"
  | .description => "description"

/-- The `allExifData` object of `drawImageWithText` (lines 85–94 / 370–379):
the labelled display line for one field. -/
def fieldLine (d : ExifData) : ExifField → String
  | .camera => "Camera: " ++ d.camera.toDisplay
  | .date => "Date: " ++ d.date.toDisplay
  | .iso => "ISO: " ++ d.iso.toDisplay
  | .shutter => "Shutter: " ++ d.shutter.toDisplay
  | .aperture => "Aperture: " ++ d.aperture.toDisplay
  | .focal => "Focal Length: " ++ d.focal.toDisplay
  | .gps => "GPS: " ++ d.gps.toDisplay
  | .description => "Description: " ++ d.description.toDisplay

/-- One canvas text call: `strokeText` or `fillText` of a line at a
position. -/
inductive DrawKind where
  | stroke | fill
deriving DecidableEq, Repr

/-- A recorded `strokeText`/`fillText` call. -/
structure DrawCall where
  kind : DrawKind
  text : String
  x : JsNum
  y : JsNum
deriving DecidableEq, Repr

/-- The text phase of `drawImageWithText` (lines 96–132 / 381–404): build
the selected lines, measure them, compute the origin, and stroke (when the
outline is enabled) and fill each line at `y + index * (fontSize + 5)`.
`measure` abstracts `ctx.measureText(line).width`; `origin` abstracts the
variant's switch (the two variants differ only there).  Every operation in
this phase is total in JavaScript — `Math.max()` of an empty spread is
`-Infinity`, and canvas calls accept any coordinates — so the embedding is
a total function. -/
def renderTextCalls (origin : String → ℕ → ℚ → JsNum → ℚ → ℚ → JsNum × JsNum)
    (textPosition : String) (fields : List ExifField) (d : ExifData)
    (fontSize : ℚ) (showOutline : Bool) (newWidth newHeight : ℚ)
    (measure : String → ℚ) : List DrawCall :=
  let textLines := fields.map (fieldLine d)
  let maxTextWidth := jsMaxList (textLines.map measure)
  let xy := origin textPosition textLines.length fontSize maxTextWidth newWidth newHeight
  textLines.enum.flatMap (fun p =>
    (if showOutline then
       [{ kind := .stroke, text := p.2, x := xy.1,
          y := xy.2 + .fin (p.1 * (fontSize + 5)) }]
     else []) ++
    [{ kind := .fill, text := p.2, x := xy.1,
       y := xy.2 + .fin (p.1 * (fontSize + 5)) }])

/-- One Image Entry as produced by `handleImageUpload`: the original file
(kept as its name), the object URL, and the extracted metadata object. -/
structure ImageEntry where
  file : String
  url : String
  exifData : ExifData
deriving DecidableEq, Repr

/-- The body of the `files.map` callback in `handleImageUpload`
(lines 23–48 / 312–334): on a successful parse the `exifData` object is
built from the parsed fields; when `ExifReader.parse` throws, the `catch`
branch only logs, so `exifData` keeps its initial value `{}`. -/
def processFile (mk : ExifRaw → ExifData) (name url : String)
    (parseResult : Except String ExifRaw) : ImageEntry :=
  { file := name
    url := url
    exifData :=
      match parseResult with
      | .ok exif => mk exif
      | .error _ => emptyExifData }

/-- The whole of `handleImageUpload` over a batch: one entry per file, in order
(`Promise.all` joins the per-file tasks and failures are isolated per
file). -/
def handleImageUpload (mk : ExifRaw → ExifData)
    (files : List (String × String × Except String ExifRaw)) : List ImageEntry :=
  files.map (fun f => processFile mk f.1 f.2.1 f.2.2)

/-- The shared style settings read by `drawImageWithText` and the
persistence effect (V2 state, lines 269–278; V1 has the same fields except
`selectedFont` and `imageQuality`). -/
structure Settings where
  selectedFont : String
  resolution : Option ℚ
  textPosition : String
  fontSize : ℚ
  textColor : String
  showOutline : Bool
  selectedExifFields : List ExifField
  imageQuality : ℚ
deriving DecidableEq, Repr

/-- A rendered canvas: its dimensions, the composited source image
(`ctx.drawImage(img, 0, 0, newWidth, newHeight)` of the entry's object
URL), and the recorded text calls. -/
structure Canvas where
  width : ℚ
  height : ℚ
  baseImage : String
  textOps : List DrawCall
deriving DecidableEq, Repr

/-- The `img.onload` body of `drawImageWithText` (lines 67–133 / 352–405),
for a source that decoded to native size `nativeW × nativeH`: scale, resize
the canvas, composite the image, then draw the selected text lines.
`origin` is the variant's switch (`computeOrigin` or `computeOriginV2`). -/
def drawImageWithText (origin : String → ℕ → ℚ → JsNum → ℚ → ℚ → JsNum × JsNum)
    (s : Settings) (measure : String → ℚ) (image : ImageEntry)
    (nativeW nativeH : ℚ) : Canvas :=
  let wh := computeOutputDims s.resolution nativeW nativeH
  { width := wh.1
    height := wh.2
    baseImage := image.url
    textOps := renderTextCalls origin s.textPosition s.selectedExifFields
      image.exifData s.fontSize s.showOutline wh.1 wh.2 measure }

/-- The mutable application state touched by the render effect: the
uploaded entries and the per-URL canvas map (`canvasRefs.current`); a URL
with no mounted canvas maps to `none`. -/
structure AppState where
  images : List ImageEntry
  canvasRefs : String → Option Canvas

/-- The render effect (lines 55–61 / 340–346 plus `drawImageWithText`): for
every entry whose URL has a mounted canvas, redraw that canvas.  `dims`
gives the decoded native size of a URL, `none` when decoding fails — then
`img.onload` never fires and the canvas is left untouched. -/
def renderAll (origin : String → ℕ → ℚ → JsNum → ℚ → ℚ → JsNum × JsNum)
    (s : Settings) (measure : String → ℚ) (dims : String → Option (ℚ × ℚ))
    (st : AppState) : AppState :=
  { images := st.images
    canvasRefs := fun u =>
      match st.images.find? (fun image => image.url == u), st.canvasRefs u, dims u with
      | some image, some _, some wh =>
          some (drawImageWithText origin s measure image wh.1 wh.2)
      | _, c, _ => c }

/-- Embedding of `file.name.replace(/\.[^/.]+$/, "")`: strip the final dot-extension —
the regex matches a final dot followed by one or more characters none of
which is a dot or a slash; with no match the name is unchanged. -/
def stripExt (s : String) : String :=
  let rev := s.data.reverse
  let ext := rev.takeWhile (fun c => c ≠ '.' && c ≠ '/')
  match ext, rev.drop ext.length with
  | _ :: _, '.' :: r => ⟨r.reverse⟩
  | _, _ => s

/-- One file inserted into the zip archive: its folder, name, and MIME type
(every inserted blob comes from `canvas.toDataURL("image/jpeg")`). -/
structure ZipFile where
  folder : String
  name : String
  mime : String
deriving DecidableEq, Repr

/-- The produced archive download: the `saveAs` filename and the inserted
files in insertion order. -/
structure Zip where
  archiveName : String
  files : List ZipFile
deriving DecidableEq, Repr

/-- The `for (const image of images)` loop of `downloadAllImages`
(lines 142–147 / 422–427).  There is no guard on the canvas lookup: when
`canvasRefs.current[image.url]` is `undefined`, the call
`canvas.toDataURL("image/jpeg")` throws a `TypeError`, which the embedding
surfaces as `Except.error`. -/
def zipEntries : List ImageEntry → (String → Option Canvas) → Except String (List ZipFile)
  | [], _ => .ok []
  | image :: rest, refs =>
      match refs image.url with
      | none => .error "TypeError: canvas is undefined"
      | some _ =>
          (zipEntries rest refs).map (fun fs =>
            { folder := "exif_images", name := stripExt image.file ++ "_exif.jpg",
              mime := "image/jpeg" } :: fs)

/-- The function `downloadAllImages` (lines 138–152 / 418–432): build the
`exif_images` folder, insert one JPEG per entry, and trigger a single
download named `exif_images.zip`. -/
def downloadAllImages (images : List ImageEntry)
    (refs : String → Option Canvas) : Except String Zip :=
  (zipEntries images refs).map (fun fs => { archiveName := "exif_images.zip", files := fs })

/-- The local-storage key of the persisted style settings. -/
def persistKey : String := "exifSettings"

/-- A persisted JSON value (only the shapes the settings object uses). -/
inductive JsonVal where
  | num : ℚ → JsonVal
  | str : String → JsonVal
  | bool : Bool → JsonVal
  | arr : List String → JsonVal
deriving DecidableEq, Repr

/-- The object serialized to local storage by the persistence effect
(V2 lines 294–298): `{ fontSize, textColor, showOutline,
selectedExifFields }`, as an ordered key-value list. -/
def exifSettingsPersisted (s : Settings) : List (String × JsonVal) :=
  [("fontSize", .num s.fontSize),
   ("textColor", .str s.textColor),
   ("showOutline", .bool s.showOutline),
   ("selectedExifFields", .arr (s.selectedExifFields.map ExifField.name))]

/-- The dependency array of the persistence effect (V2 line 298): the
settings whose change re-runs the effect. -/
def persistDeps : List String :=
  ["selectedFont", "fontSize", "textColor", "showOutline", "selectedExifFields"]

/-- An `ExifRaw` with every property absent: a parse that succeeded but
recognized no field. -/
def exEmpty : ExifRaw :=
  { Model := none, DateTimeOriginal := none, ISO := none, ExposureTime := none,
    FNumber := none, FocalLength := none, latitude := none, longitude := none,
    ImageDescription := none }

/-- An EXIF result whose parse succeeded with every falsy-but-present
value the truthiness tests confuse with absence. -/
def exFalsy : ExifRaw :=
  { Model := some "", DateTimeOriginal := none, ISO := some 0,
    ExposureTime := none, FNumber := none, FocalLength := none,
    latitude := some 0, longitude := some 10, ImageDescription := some "" }

/-- The spec's scenario input: `FNumber=2.8, ExposureTime=0.005, ISO=400,
FocalLength=50`. -/
def exScenario : ExifRaw :=
  { Model := none, DateTimeOriginal := none, ISO := some 400,
    ExposureTime := some (1 / 200), FNumber := some (14 / 5),
    FocalLength := some 50, latitude := none, longitude := none,
    ImageDescription := none }

/-- A rendered canvas used by the export witnesses. -/
def canvasA : Canvas := { width := 800, height := 600, baseImage := "blob:a", textOps := [] }

/-- The first export-witness entry. -/
def entryA : ImageEntry := ⟨"photo.jpg", "blob:a", mkExifData exEmpty⟩

/-- The second export-witness entry. -/
def entryB : ImageEntry := ⟨"scan.old.tiff", "blob:b", emptyExifData⟩

/-- A canvas map with both witness canvases mounted. -/
def refsAB : String → Option Canvas := fun u =>
  if u = "blob:a" then some canvasA else if u = "blob:b" then some canvasA else none

/-- A canvas map in which only `entryA`'s canvas is mounted. -/
def refsOnlyA : String → Option Canvas := fun u =>
  if u = "blob:a" then some canvasA else none

/-- Evaluation helper: `numToString` of a nonnegative rational with known
numerator and denominator, reduced to a pure `ℕ` computation (kernel
reduction of `ℚ` field operations is blocked by `Nat.gcd`, so concrete
values are supplied through `norm_num`). -/
theorem numToString_eval (q : ℚ) (n d : ℕ) (hq : ¬ q < 0) (hn : q.num = n) (hd : q.den = d) :
    numToString q =
      (if n % d = 0 then toString (n / d)
       else toString (n / d) ++ "." ++ decimalDigits 40 (n % d) d) := by
  simp only [numToString, if_neg hq, numToStringNonneg, hn, hd]
  simp

theorem JsNum.sub_def (a b : JsNum) : a - b = jsSub a b := rfl

theorem JsNum.div_def (a b : JsNum) : a / b = jsDiv a b := rfl

theorem JsNum.add_def (a b : JsNum) : a + b = jsAdd a b := rfl

theorem length_flatMap_const {α β : Type} (l : List α) (g : α → List β) (k : ℕ)
    (hg : ∀ a, (g a).length = k) : (l.flatMap g).length = k * l.length := by
  induction l with
  | nil => simp
  | cons a l ih =>
      simp only [List.flatMap_cons, List.length_append, List.length_cons, hg, ih]
      ring

/-- C1: for each of the five anchors, the switch of `drawImageWithText`
(in both variants) places the text block at the spec's origin: `x = 20`
for left anchors, `x = canvasWidth - 20 - maxTextWidth` for right anchors,
`x = (canvasWidth - maxTextWidth) / 2` for bottom-center; `y = 20 +
fontSize` for top anchors and `y = canvasHeight - lineCount * (fontSize +
5)` for bottom anchors. -/
theorem computeOrigin_matches_spec (pos : String)
    (hpos : pos ∈ anchorPositions) (n : ℕ) (_hn : 0 < n) (fs m w h : ℚ) :
    computeOrigin pos n fs (.fin m) w h =
      (JsNum.fin (originXSpec pos m w), JsNum.fin (originYSpec pos n fs h)) ∧
    computeOriginV2 pos n fs (.fin m) w h =
      (JsNum.fin (originXSpec pos m w), JsNum.fin (originYSpec pos n fs h)) := by
  simp only [anchorPositions, List.mem_cons, List.not_mem_nil, or_false] at hpos
  rcases hpos with rfl | rfl | rfl | rfl | rfl <;>
    refine ⟨?_, ?_⟩ <;>
      simp [computeOrigin, computeOriginV2, originXSpec, originYSpec, padding,
        JsNum.sub_def, JsNum.div_def, JsNum.jsSub, JsNum.jsAdd, JsNum.jsNeg,
        JsNum.jsDiv, sub_eq_add_neg, Prod.ext_iff]

/-- C1 witness: anchor `bottom-right`, 3 lines, font size 20, canvas
800×600, max measured width 150 gives origin (630, 525) in both
variants. -/
theorem computeOrigin_matches_spec_witness :
    computeOrigin "bottom-right" 3 20 (.fin 150) 800 600 = (.fin 630, .fin 525) ∧
    computeOriginV2 "bottom-right" 3 20 (.fin 150) 800 600 = (.fin 630, .fin 525) := by
  have h := computeOrigin_matches_spec "bottom-right" (by decide) 3 (by decide) 20 150 800 600
  refine ⟨h.1.trans ?_, h.2.trans ?_⟩ <;>
    · simp [originXSpec, originYSpec]
      norm_num

/-- C2: with a configured maximum width, a wider source is scaled to
`(maxWidth, nativeHeight * maxWidth / nativeWidth)` (width equal to the
maximum, aspect preserved); otherwise — `"original"` or a source no wider
than the maximum — the native dimensions are kept. -/
theorem computeOutputDims_spec (r w h : ℚ) (hw : 0 < w) :
    computeOutputDims (some r) w h =
      (if w > r then (r, h * r / w) else (w, h)) ∧
    computeOutputDims none w h = (w, h) := by
  refine ⟨?_, rfl⟩
  simp only [computeOutputDims]
  split_ifs with hcmp
  · have hw0 : w ≠ 0 := ne_of_gt hw
    field_simp
    ring
  · rfl

/-- C2 witness: a 3000×2000 source with a 1920 maximum yields 1920×1280;
the same source under `"original"` keeps 3000×2000. -/
theorem computeOutputDims_spec_witness :
    computeOutputDims (some 1920) 3000 2000 = (1920, 1280) ∧
    computeOutputDims none 3000 2000 = (3000, 2000) := by
  have h := computeOutputDims_spec 1920 3000 2000 (by norm_num)
  refine ⟨h.1.trans ?_, h.2⟩
  norm_num

/-- C7: the text phase of `drawImageWithText` is a total function for
every selection of fields (nothing in it can throw: `Math.max` of an empty
spread is `-Infinity` and the canvas calls accept any coordinates), it
emits `(outline ? 2 : 1)` calls per selected line, and the empty selection
emits no stroke or fill at all. -/
theorem render_total_and_empty_selection
    (origin : String → ℕ → ℚ → JsNum → ℚ → ℚ → JsNum × JsNum)
    (s : Settings) (measure : String → ℚ) (image : ImageEntry)
    (nativeW nativeH : ℚ) :
    (drawImageWithText origin s measure image nativeW nativeH).textOps.length =
      (if s.showOutline then 2 else 1) * s.selectedExifFields.length ∧
    (s.selectedExifFields = [] →
      (drawImageWithText origin s measure image nativeW nativeH).textOps = []) := by
  constructor
  · show (renderTextCalls origin _ _ _ _ _ _ _ _).length = _
    unfold renderTextCalls
    rw [length_flatMap_const _ _ (if s.showOutline then 2 else 1)
      (fun p => by cases hso : s.showOutline <;> simp [hso])]
    simp
  · intro hempty
    show renderTextCalls origin _ _ _ _ _ _ _ _ = _
    simp [renderTextCalls, hempty]

/-- C7 witness: with the empty field selection the render emits no text
call (for either variant's origin switch), and the call count law holds
there. -/
theorem render_total_and_empty_selection_witness :
    (drawImageWithText computeOrigin
      { selectedFont := "Arial", resolution := some 1920,
        textPosition := "top-left", fontSize := 20, textColor := "#FFFFFF",
        showOutline := true, selectedExifFields := [], imageQuality := 100 }
      (fun _ => 150) ⟨"photo.jpg", "blob:a", emptyExifData⟩ 800 600).textOps = [] := by
  exact (render_total_and_empty_selection computeOrigin
    { selectedFont := "Arial", resolution := some 1920,
      textPosition := "top-left", fontSize := 20, textColor := "#FFFFFF",
      showOutline := true, selectedExifFields := [], imageQuality := 100 }
    (fun _ => 150) ⟨"photo.jpg", "blob:a", emptyExifData⟩ 800 600).2 rfl

/-- C9: the render effect never touches the entry collection: however many
re-renders run, with whatever settings, measurers and decode results, the
entries — and so each entry's `exifData` (populated once at upload) and
source handle — are exactly the ones produced at upload time; only the
canvas map changes. -/
theorem renderAll_preserves_entries
    (renders : List ((String → ℕ → ℚ → JsNum → ℚ → ℚ → JsNum × JsNum) ×
      Settings × (String → ℚ) × (String → Option (ℚ × ℚ))))
    (st : AppState) :
    (renders.foldl (fun acc r => renderAll r.1 r.2.1 r.2.2.1 r.2.2.2 acc) st).images
      = st.images := by
  induction renders generalizing st with
  | nil => rfl
  | cons r rs ih => rw [List.foldl_cons, ih]; rfl

/-- C10: presence of a parsed value is tested by JavaScript truthiness
(`||`, `&&`), so a falsy extracted value — ISO `0`, empty model or
description string, zero latitude or longitude — degrades the
corresponding field (`iso`, `camera`, `description`, `gps`) to `"N/A"` in
both variants, even though extraction found a value. -/
theorem falsy_values_become_na (e : ExifRaw) :
    (e.ISO = some 0 →
      (mkExifData e).iso = .str "N/A" ∧ (mkExifDataV2 e).iso = .str "N/A") ∧
    (e.Model = some "" →
      (mkExifData e).camera = .str "N/A" ∧ (mkExifDataV2 e).camera = .str "N/A") ∧
    (e.ImageDescription = some "" →
      (mkExifData e).description = .str "N/A" ∧
      (mkExifDataV2 e).description = .str "N/A") ∧
    (e.latitude = some 0 →
      (mkExifData e).gps = .str "N/A" ∧ (mkExifDataV2 e).gps = .str "N/A") ∧
    (e.longitude = some 0 →
      (mkExifData e).gps = .str "N/A" ∧ (mkExifDataV2 e).gps = .str "N/A") := by
  refine ⟨fun h => ?_, fun h => ?_, fun h => ?_, fun h => ?_, fun h => ?_⟩ <;>
    simp [mkExifData, mkExifDataV2, truthyQ, truthyStr, h]

/-- C10 witness: on a parse result with ISO `0`, empty model and
description, and latitude `0`, all four fields are `"N/A"`. -/
theorem falsy_values_become_na_witness :
    ((mkExifData exFalsy).iso = .str "N/A" ∧ (mkExifDataV2 exFalsy).iso = .str "N/A") ∧
    ((mkExifData exFalsy).camera = .str "N/A" ∧ (mkExifDataV2 exFalsy).camera = .str "N/A") ∧
    ((mkExifData exFalsy).description = .str "N/A" ∧
      (mkExifDataV2 exFalsy).description = .str "N/A") ∧
    ((mkExifData exFalsy).gps = .str "N/A" ∧ (mkExifDataV2 exFalsy).gps = .str "N/A") := by
  have h := falsy_values_become_na exFalsy
  exact ⟨h.1 rfl, h.2.1 rfl, h.2.2.1 rfl, h.2.2.2.1 rfl⟩

/-- C3 counterexample: a parse that succeeds with latitude `0` and
longitude `10` — both coordinates present — still yields `gps = "N/A"`
(in both variants), not `"0, 10"`; so the claim's "exactly when both
latitude and longitude are present" is false on the code. -/
theorem gps_zero_latitude_counterexample :
    exFalsy.latitude.isSome = true ∧ exFalsy.longitude.isSome = true ∧
    (mkExifData exFalsy).gps = .str "N/A" ∧
    (mkExifDataV2 exFalsy).gps = .str "N/A" ∧
    numToString 0 ++ ", " ++ numToString 10 ≠ "N/A" := by
  refine ⟨rfl, rfl, ?_, ?_, ?_⟩
  · simp [mkExifData, exFalsy, truthyQ]
  · simp [mkExifDataV2, exFalsy, truthyQ]
  · rw [numToString_eval 0 0 1 (by norm_num) (by norm_num) (by norm_num),
      numToString_eval 10 10 1 (by norm_num) (by norm_num) (by norm_num)]
    decide

/-- C3 (amended): metadata fields are formatted as the claim states when
the source value is present *and truthy (nonzero)*: shutter
`1/round(1/exposureTime)`, aperture `f/<FNumber>`, focal `<value>mm`, iso
as the number itself, gps `"<lat>, <lon>"` exactly when both coordinates
are truthy, else `"N/A"`. -/
theorem exif_fields_formatted (e : ExifRaw) :
    (∀ t : ℚ, e.ExposureTime = some t → t ≠ 0 →
      (mkExifData e).shutter = .str ("1/" ++ toString (jsRound (1 / t))) ∧
      (mkExifDataV2 e).shutter = .str ("1/" ++ toString (jsRound (1 / t)))) ∧
    (∀ f : ℚ, e.FNumber = some f → f ≠ 0 →
      (mkExifData e).aperture = .str ("f/" ++ numToString f) ∧
      (mkExifDataV2 e).aperture = .str ("f/" ++ numToString f)) ∧
    (∀ fl : ℚ, e.FocalLength = some fl → fl ≠ 0 →
      (mkExifData e).focal = .str (numToString fl ++ "mm") ∧
      (mkExifDataV2 e).focal = .str (numToString fl ++ "mm")) ∧
    (∀ n : ℚ, e.ISO = some n → n ≠ 0 →
      (mkExifData e).iso = .num n ∧ (mkExifData e).iso.toDisplay = numToString n) ∧
    (∀ la lo : ℚ, e.latitude = some la → e.longitude = some lo → la ≠ 0 → lo ≠ 0 →
      (mkExifData e).gps = .str (numToString la ++ ", " ++ numToString lo) ∧
      (mkExifDataV2 e).gps = .str (numToString la ++ ", " ++ numToString lo)) ∧
    ((truthyQ e.latitude = false ∨ truthyQ e.longitude = false) →
      (mkExifData e).gps = .str "N/A" ∧ (mkExifDataV2 e).gps = .str "N/A") := by
  refine ⟨fun t ht ht0 => ?_, fun f hf hf0 => ?_, fun fl hfl hfl0 => ?_,
    fun n hn hn0 => ?_, fun la lo hla hlo hla0 hlo0 => ?_, fun hfalse => ?_⟩
  · simp [mkExifData, mkExifDataV2, truthyQ, ht, ht0]
  · simp [mkExifData, mkExifDataV2, truthyQ, hf, hf0]
  · simp [mkExifData, mkExifDataV2, truthyQ, hfl, hfl0]
  · simp [mkExifData, JsVal.toDisplay, truthyQ, hn, hn0]
  · simp [mkExifData, mkExifDataV2, truthyQ, hla, hlo, hla0, hlo0]
  · rcases hfalse with h | h <;>
      simp [mkExifData, mkExifDataV2, h]

/-- C3 witness: the scenario input yields `aperture="f/2.8"`,
`shutter="1/200"`, `iso="400"`, `focal="50mm"`. -/
theorem exif_fields_formatted_witness :
    (mkExifData exScenario).aperture = .str "f/2.8" ∧
    (mkExifData exScenario).shutter = .str "1/200" ∧
    (mkExifData exScenario).iso.toDisplay = "400" ∧
    (mkExifData exScenario).focal = .str "50mm" := by
  have h := exif_fields_formatted exScenario
  refine ⟨((h.2.1 (14 / 5) rfl (by norm_num)).1).trans ?_,
    ((h.1 (1 / 200) rfl (by norm_num)).1).trans ?_,
    ((h.2.2.2.1 400 rfl (by norm_num)).2).trans ?_,
    ((h.2.2.1 50 rfl (by norm_num)).1).trans ?_⟩
  · rw [numToString_eval (14 / 5) 14 5 (by norm_num) (by norm_num) (by norm_num)]
    decide
  · have : jsRound (1 / (1 / 200 : ℚ)) = 200 := by unfold jsRound; norm_num
    rw [this]; decide
  · rw [numToString_eval 400 400 1 (by norm_num) (by norm_num) (by norm_num)]
    decide
  · rw [numToString_eval 50 50 1 (by norm_num) (by norm_num) (by norm_num)]
    decide

/-- C4: when `ExifReader.parse` throws, the `catch` branch only logs, so
the entry keeps `exifData = {}`: every field is `undefined` — not the
placeholder `"N/A"` the spec promises — and renders as e.g.
`"Camera: undefined"`.  The batch itself does complete with one entry per
file and a successfully parsed file in the same batch is unaffected. -/
theorem parse_failure_leaves_empty_object :
    (processFile mkExifData "broken.jpg" "blob:b" (.error "Invalid EXIF")).exifData
      = emptyExifData ∧
    emptyExifData.camera = JsVal.undef ∧
    emptyExifData.camera ≠ JsVal.str "N/A" ∧
    fieldLine emptyExifData .camera = "Camera: undefined" ∧
    handleImageUpload mkExifData
        [("ok.jpg", "blob:a", .ok exEmpty), ("broken.jpg", "blob:b", .error "Invalid EXIF")]
      = [⟨"ok.jpg", "blob:a", mkExifData exEmpty⟩,
         ⟨"broken.jpg", "blob:b", emptyExifData⟩] ∧
    (mkExifData exEmpty).camera = JsVal.str "N/A" := by
  decide

/-- C5 helper: when every entry's URL has a mounted canvas, the export
loop inserts exactly one JPEG per entry, in order. -/
theorem zipEntries_all_rendered (refs : String → Option Canvas) :
    ∀ images : List ImageEntry, (∀ i ∈ images, (refs i.url).isSome) →
      zipEntries images refs =
        .ok (images.map (fun i =>
          { folder := "exif_images", name := stripExt i.file ++ "_exif.jpg",
            mime := "image/jpeg" })) := by
  intro images hall
  induction images with
  | nil => rfl
  | cons a rest ih =>
      have ha : (refs a.url).isSome := hall a (List.mem_cons_self a rest)
      cases h : refs a.url with
      | none => rw [h] at ha; cases ha
      | some c =>
          have hrest := ih (fun i hi => hall i (List.mem_cons_of_mem a hi))
          simp only [zipEntries, h, hrest, List.map_cons]
          rfl

/-- C5: for a non-empty batch in which every entry has a rendered canvas,
`downloadAllImages` produces exactly one archive named `exif_images.zip`
holding one JPEG per entry under the single folder `exif_images`, each
named by stripping the original filename's final dot-extension and
appending `_exif.jpg`. -/
theorem downloadAll_zip_structure (images : List ImageEntry)
    (refs : String → Option Canvas) (_hne : images ≠ [])
    (hall : ∀ i ∈ images, (refs i.url).isSome) :
    downloadAllImages images refs =
      .ok { archiveName := "exif_images.zip",
            files := images.map (fun i =>
              { folder := "exif_images",
                name := stripExt i.file ++ "_exif.jpg",
                mime := "image/jpeg" }) } ∧
    (images.map (fun i =>
      ({ folder := "exif_images", name := stripExt i.file ++ "_exif.jpg",
         mime := "image/jpeg" } : ZipFile))).length = images.length := by
  refine ⟨?_, by simp⟩
  unfold downloadAllImages
  rw [zipEntries_all_rendered refs images hall]
  rfl

/-- C5 witness: a concrete 2-entry batch exports a single
`exif_images.zip` with exactly two JPEGs named `photo_exif.jpg` and
`scan.old_exif.jpg` under `exif_images`. -/
theorem downloadAll_zip_structure_witness :
    downloadAllImages [entryA, entryB] refsAB =
      .ok { archiveName := "exif_images.zip",
            files := [⟨"exif_images", "photo_exif.jpg", "image/jpeg"⟩,
                      ⟨"exif_images", "scan.old_exif.jpg", "image/jpeg"⟩] } := by
  rw [(downloadAll_zip_structure [entryA, entryB] refsAB (by decide) (by decide)).1]
  rfl

/-- C6 counterexample: with `entryB`'s canvas missing, the export loop
reads `toDataURL` of `undefined` and throws — the batch export aborts with
an error instead of skipping the entry silently. -/
theorem downloadAll_missing_canvas_aborts :
    downloadAllImages [entryA, entryB] refsOnlyA =
      .error "TypeError: canvas is undefined" := by
  rfl

/-- C6 (amended): an entry with no renderable canvas is not skipped: the
unguarded `canvas.toDataURL` throws, the whole export aborts with an
error, and no archive is produced for the remaining entries. -/
theorem export_missing_surface_aborts (images : List ImageEntry)
    (refs : String → Option Canvas) (i : ImageEntry) (hi : i ∈ images)
    (hnone : refs i.url = none) :
    ∃ msg, downloadAllImages images refs = .error msg := by
  unfold downloadAllImages
  suffices h : ∃ msg, zipEntries images refs = .error msg by
    rcases h with ⟨msg, hmsg⟩
    exact ⟨msg, by simp [hmsg, Except.map]⟩
  induction images with
  | nil => cases hi
  | cons a rest ih =>
      rcases List.mem_cons.mp hi with rfl | hmem
      · refine ⟨"TypeError: canvas is undefined", ?_⟩
        simp [zipEntries, hnone]
      · cases h : refs a.url with
        | none =>
            refine ⟨"TypeError: canvas is undefined", ?_⟩
            simp [zipEntries, h]
        | some c =>
            rcases ih hmem with ⟨msg, hmsg⟩
            refine ⟨msg, ?_⟩
            simp only [zipEntries, h, hmsg]
            rfl

/-- C6 witness: the amended statement at the concrete 2-entry batch with
`entryB`'s canvas missing. -/
theorem export_missing_surface_aborts_witness :
    ∃ msg, downloadAllImages [entryA, entryB] refsOnlyA = .error msg :=
  export_missing_surface_aborts [entryA, entryB] refsOnlyA entryB
    (by decide) (by decide)

/-- C8: the persisted `"exifSettings"` value is a JSON object with exactly
the keys `fontSize`, `textColor`, `showOutline`, `selectedExifFields`,
each holding the current setting; `selectedFont` is in the effect's
dependency array (its change re-runs the persistence) but is never a key
of the persisted object. -/
theorem exif_settings_persistence (s : Settings) :
    (exifSettingsPersisted s).map Prod.fst =
      ["fontSize", "textColor", "showOutline", "selectedExifFields"] ∧
    (exifSettingsPersisted s).lookup "fontSize" = some (.num s.fontSize) ∧
    (exifSettingsPersisted s).lookup "textColor" = some (.str s.textColor) ∧
    (exifSettingsPersisted s).lookup "showOutline" = some (.bool s.showOutline) ∧
    (exifSettingsPersisted s).lookup "selectedExifFields" =
      some (.arr (s.selectedExifFields.map ExifField.name)) ∧
    "selectedFont" ∈ persistDeps ∧
    "selectedFont" ∉ (exifSettingsPersisted s).map Prod.fst ∧
    persistKey = "exifSettings" := by
  refine ⟨rfl, ?_, ?_, ?_, ?_, by decide, by simp [exifSettingsPersisted], rfl⟩ <;>
    simp [exifSettingsPersisted, List.lookup]
